import Mathlib

/-!
Shallow embedding of the SEI DLP range-optimization and risk-scoring engine.

Sources embedded:
* `sei_dlp_ai/models/risk_manager.py` — `RiskManager.assess_vault_risk` and its
  four component-risk helpers (pure rational arithmetic, modelled over `ℚ`).
* `api_bridge.py` — `analyze_rebalance_need` (integer tick arithmetic plus
  rational utilization thresholds).
* `sei_dlp_ai/models/liquidity_optimizer.py` — `generate_rebalance_signal`,
  `_align_to_tick_spacing`, `_optimize_for_sei`,
  `_calculate_performance_metrics`, `_calculate_volatility_features`, and the
  post-predictor pipeline of `predict_optimal_range` (lines 116–131),
  parameterized by the raw prediction triple produced by whichever predictor
  branch (ONNX session / sklearn regressor / statistical fallback) was active.

Python `float`/`Decimal` arithmetic is idealized as exact real (`ℝ`) or
rational (`ℚ`) arithmetic.  A Python statement that raises an exception is
modelled by an `Option`-valued function returning `none`; a float `NaN`
flowing through the volatility features is modelled as `none` in an
`Option ℝ` field.
-/

/-! ## Vault risk scoring (`risk_manager.py`) -/

/-- The vault metrics dictionary consumed by `RiskManager.assess_vault_risk`
(all five keys present, as in the spec scenario). -/
structure VaultData where
  volatility : ℚ
  correlation : ℚ
  liquidity : ℚ
  position_size : ℚ
  total_pool_size : ℚ

structure RiskComponents where
  impermanent_loss_risk : ℚ
  volatility_risk : ℚ
  liquidity_risk : ℚ
  concentration_risk : ℚ

structure RiskAssessment where
  overall_risk_score : ℚ
  risk_level : String
  components : RiskComponents

/-- `RiskManager._calculate_impermanent_loss_risk`:
`min(volatility * (1 - correlation) * 1.5, 1.0)`. -/
def calculate_impermanent_loss_risk (v : VaultData) : ℚ :=
  min (v.volatility * (1 - v.correlation) * 1.5) 1

/-- `RiskManager._calculate_volatility_risk`: `min(volatility / 0.8, 1.0)`. -/
def calculate_volatility_risk (v : VaultData) : ℚ :=
  min (v.volatility / 0.8) 1

/-- `RiskManager._calculate_liquidity_risk`: tiered against the
`liquidity_depth` threshold of 10000. -/
def calculate_liquidity_risk (v : VaultData) : ℚ :=
  if v.liquidity < 10000 then 0.8
  else if v.liquidity < 10000 * 5 then 0.4
  else 0.1

/-- `RiskManager._calculate_concentration_risk`:
`min((position_size / total_pool_size if total_pool_size > 0 else 0) / 0.7, 1.0)`. -/
def calculate_concentration_risk (v : VaultData) : ℚ :=
  let concentration := if 0 < v.total_pool_size then v.position_size / v.total_pool_size else 0
  min (concentration / 0.7) 1

/-- `RiskManager.assess_vault_risk`: weighted aggregate
`0.3*il + 0.25*vol + 0.25*liq + 0.2*conc` with level thresholds
`< 0.3 → "low"`, `< 0.6 → "medium"`, else `"high"`.  The arithmetic cannot
raise, so the `except` fallback branch of the source is unreachable. -/
def assess_vault_risk (v : VaultData) : RiskAssessment :=
  let il_risk := calculate_impermanent_loss_risk v
  let volatility_risk := calculate_volatility_risk v
  let liquidity_risk := calculate_liquidity_risk v
  let concentration_risk := calculate_concentration_risk v
  let overall_risk :=
    il_risk * 0.3 + volatility_risk * 0.25 + liquidity_risk * 0.25 + concentration_risk * 0.2
  { overall_risk_score := overall_risk
    risk_level :=
      if overall_risk < 0.3 then "low"
      else if overall_risk < 0.6 then "medium"
      else "high"
    components :=
      { impermanent_loss_risk := il_risk
        volatility_risk := volatility_risk
        liquidity_risk := liquidity_risk
        concentration_risk := concentration_risk } }

/-! ## Rebalance-need analysis (`api_bridge.py`, `analyze_rebalance_need`) -/

/-- Python `int(x)` on a float: truncation toward zero. -/
def qtrunc (x : ℚ) : ℤ := if 0 ≤ x then ⌊x⌋ else ⌈x⌉

structure RebalanceRequest where
  lower_tick : ℤ
  upper_tick : ℤ
  current_tick : ℤ
  utilization_rate : ℚ

structure RebalanceResponse where
  action : String
  urgency : String
  new_lower_tick : ℤ
  new_upper_tick : ℤ
  expected_improvement : ℚ
  risk_assessment : String
  gas_cost_estimate : ℚ

/-- `analyze_rebalance_need` from `api_bridge.py` (lines 226–290).
Python `//` is floor division, embedded as `Int.fdiv`. -/
def analyze_rebalance_need (req : RebalanceRequest) : RebalanceResponse :=
  let tick_range : ℤ := req.upper_tick - req.lower_tick
  let optimal_utilization : ℚ := 0.75
  let triple : String × String × ℚ :=
    if req.utilization_rate < 0.3 then
      ("rebalance_required", "high", (optimal_utilization - req.utilization_rate) * 100)
    else if req.utilization_rate < 0.6 then
      ("rebalance_suggested", "medium", (optimal_utilization - req.utilization_rate) * 60)
    else
      ("hold_position", "low", 0)
  let action := triple.1
  let urgency := triple.2.1
  let improvement := triple.2.2
  let ticks : ℤ × ℤ :=
    if action ≠ "hold_position" then
      let range_adjustment : ℚ := if urgency = "high" then 0.7 else 0.85
      let new_range_width : ℤ := qtrunc ((tick_range : ℚ) * range_adjustment)
      let new_lower_tick := req.current_tick - new_range_width.fdiv 2
      let new_upper_tick := req.current_tick + new_range_width.fdiv 2
      (((new_lower_tick.fdiv 60) * 60), ((new_upper_tick.fdiv 60) * 60))
    else
      (req.lower_tick, req.upper_tick)
  { action := action
    urgency := urgency
    new_lower_tick := ticks.1
    new_upper_tick := ticks.2
    expected_improvement := improvement
    risk_assessment :=
      if urgency = "high" then "High opportunity cost - immediate rebalancing recommended"
      else if urgency = "medium" then "Moderate inefficiency - rebalancing beneficial"
      else "Position optimal - no immediate action required"
    gas_cost_estimate := 0.15 }

/-! ## Rebalance signal (`LiquidityOptimizer.generate_rebalance_signal`) -/

structure TradingSignal where
  action : String
  confidence : ℚ
  target_price : ℚ

/-- `LiquidityOptimizer.generate_rebalance_signal` (lines 503–538), with the
position's `entry_price`, the pool's `price_token0_in_token1`, and the
`threshold` argument as inputs; `None` is modelled by `none`. -/
def generate_rebalance_signal (entry_price current_price threshold : ℚ) :
    Option TradingSignal :=
  let price_change := |current_price - entry_price| / entry_price
  if threshold < price_change then
    some { action := "REBALANCE"
           confidence := min 0.9 (price_change * 2)
           target_price := current_price }
  else
    none

/-! ## Tick alignment and the range pipeline (`liquidity_optimizer.py`) -/

/-- The tick base `1.0001` used by `_align_to_tick_spacing`. -/
noncomputable def tickBase : ℝ := 1.0001

/-- Python `int(x)` on a float: truncation toward zero (over `ℝ`). -/
noncomputable def itrunc (x : ℝ) : ℤ := if 0 ≤ x then ⌊x⌋ else ⌈x⌉

/-- `LiquidityOptimizer._align_to_tick_spacing` (lines 451–462) with the
instance's `min_tick_spacing = 60`.  For a non-positive price, `np.log`
produces `nan` / `-inf` and the `int(...)` conversion raises
(`ValueError` / `OverflowError`); this raising path is modelled by `none`. -/
noncomputable def align_to_tick_spacing (price : ℝ) : Option ℝ :=
  if price ≤ 0 then none
  else
    let tick : ℤ := itrunc (Real.log price / Real.log tickBase)
    let aligned_tick : ℤ := tick.fdiv 60 * 60
    some (tickBase ^ aligned_tick)

/-- The raw range-prediction dict produced by any of the three predictor
branches (`_predict_with_onnx`, `_predict_with_sklearn`,
`_predict_statistical`). -/
structure RangePrediction where
  lower_price : ℝ
  upper_price : ℝ
  confidence : ℝ
  reasoning : String

/-- The pool fields read by the pipeline: the derived
`price_token0_in_token1` property and `fee_tier`. -/
structure LiquidityPool where
  price_token0_in_token1 : ℝ
  fee_tier : ℝ

/-- The market-data field read by `_calculate_performance_metrics`. -/
structure MarketData where
  volume_24h : ℝ

structure PerformanceMetrics where
  expected_fees : ℝ
  il_risk : ℝ
  capital_efficiency : ℝ

/-- The final `LiquidityRange` pydantic model. -/
structure LiquidityRange where
  lower_price : ℝ
  upper_price : ℝ
  confidence : ℝ
  expected_fees : ℝ
  impermanent_loss_risk : ℝ
  capital_efficiency : ℝ
  reasoning : String

/-- `LiquidityOptimizer._optimize_for_sei` (lines 422–449): tick-align both
bounds, then shrink the width by the gas-optimization factor `0.95` around
the unchanged midpoint.  `none` models an exception escaping from
`_align_to_tick_spacing`. -/
noncomputable def optimize_for_sei (rp : RangePrediction) : Option RangePrediction :=
  match align_to_tick_spacing rp.lower_price, align_to_tick_spacing rp.upper_price with
  | some lower_price, some upper_price =>
    let range_width := upper_price - lower_price
    let optimized_width := range_width * 0.95
    let center_price := (upper_price + lower_price) / 2
    some { lower_price := center_price - optimized_width / 2
           upper_price := center_price + optimized_width / 2
           confidence := rp.confidence
           reasoning := rp.reasoning ++ " + SEI gas optimization" }
  | _, _ => none

/-- `LiquidityOptimizer._calculate_performance_metrics` (lines 464–501).
The three `none` branches model, in the source's evaluation order, the
exceptions raised by `(upper - lower) / current_price` when
`current_price = 0` (`Decimal` division by zero), by
`sum(...) / len(market_data)` on an empty list (`ZeroDivisionError`), and by
`0.1 / range_width_pct` when the range width is zero (`ZeroDivisionError`). -/
noncomputable def calculate_performance_metrics (rp : RangePrediction)
    (pool : LiquidityPool) (market_data : List MarketData) (position_size : ℝ) :
    Option PerformanceMetrics :=
  let lower_price := rp.lower_price
  let upper_price := rp.upper_price
  let current_price := pool.price_token0_in_token1
  if current_price = 0 then none
  else
    let range_width_pct := (upper_price - lower_price) / current_price
    if market_data.length = 0 then none
    else
      let volume_24h :=
        (market_data.map fun md => md.volume_24h).sum / (market_data.length : ℝ)
      if range_width_pct = 0 then none
      else
        let concentration_multiplier := min 5 (0.1 / range_width_pct)
        let expected_fee_rate := pool.fee_tier * concentration_multiplier
        let expected_fees := volume_24h * expected_fee_rate / 365
        some { expected_fees := expected_fees * position_size / 1000
               il_risk := min 0.5 (range_width_pct * 2)
               capital_efficiency :=
                 if current_price ≤ lower_price ∨ upper_price ≤ current_price then 0
                 else min 1 (1 / range_width_pct) }

/-- `LiquidityOptimizer.predict_optimal_range` (lines 116–131): the pipeline
applied after the selected predictor branch produced the raw prediction
`raw`.  `none` models any exception propagating out (re-raised by the
`except` clause at lines 133–135). -/
noncomputable def predict_optimal_range (raw : RangePrediction)
    (pool : LiquidityPool) (market_data : List MarketData) (position_size : ℝ) :
    Option LiquidityRange :=
  (optimize_for_sei raw).bind fun optimized_range =>
    (calculate_performance_metrics optimized_range pool market_data position_size).map fun pm =>
      { lower_price := optimized_range.lower_price
        upper_price := optimized_range.upper_price
        confidence := optimized_range.confidence
        expected_fees := pm.expected_fees
        impermanent_loss_risk := pm.il_risk
        capital_efficiency := pm.capital_efficiency
        reasoning := optimized_range.reasoning }

/-! ## Volatility features (`LiquidityOptimizer._calculate_volatility_features`) -/

/-- One row of the historical dataframe. -/
structure HistRow where
  price : ℝ
  volume : ℝ
  funding_rate : ℝ

/-- Pandas sample standard deviation (`ddof = 1`) of a list of values. -/
noncomputable def sampleStd (xs : List ℝ) : ℝ :=
  let n : ℝ := xs.length
  let mean := xs.sum / n
  Real.sqrt ((xs.map fun x => (x - mean) ^ 2).sum / (n - 1))

/-- `series.rolling(w).std().iloc[-1]`: the sample std of the last `w`
values, or `NaN` (modelled `none`) when fewer than `w` rows exist
(`min_periods` defaults to the window size). -/
noncomputable def rollingStdLast (w : ℕ) (xs : List ℝ) : Option ℝ :=
  if xs.length < w then none else some (sampleStd (xs.drop (xs.length - w)))

/-- Pandas Pearson correlation `xs.corr(ys)`; `NaN` (modelled `none`) when
either series has zero variance. -/
noncomputable def pearsonCorr (xs ys : List ℝ) : Option ℝ :=
  let n : ℝ := xs.length
  let mx := xs.sum / n
  let my := ys.sum / n
  let cov := ((xs.zip ys).map fun p => (p.1 - mx) * (p.2 - my)).sum
  let vx := (xs.map fun x => (x - mx) ^ 2).sum
  let vy := (ys.map fun y => (y - my) ^ 2).sum
  if vx = 0 ∨ vy = 0 then none else some (cov / (Real.sqrt vx * Real.sqrt vy))

/-- The five volatility features.  A float `NaN` is modelled as `none`; note
that the source's `... or 0.0` idiom does not replace `NaN` (which is truthy
in Python), so `NaN` flows through it unchanged. -/
structure VolatilityFeatures where
  price_volatility_1h : Option ℝ
  price_volatility_24h : Option ℝ
  volume_volatility_24h : Option ℝ
  funding_rate_volatility : Option ℝ
  cross_correlation : Option ℝ

/-- `LiquidityOptimizer._calculate_volatility_features` (lines 195–227).
`has_funding_column` models whether `"funding_rate"` is among the dataframe's
columns. -/
noncomputable def calculate_volatility_features (has_funding_column : Bool)
    (rows : List HistRow) : VolatilityFeatures :=
  match rows with
  | [] =>
    { price_volatility_1h := some 0
      price_volatility_24h := some 0
      volume_volatility_24h := some 0
      funding_rate_volatility := some 0
      cross_correlation := some 0 }
  | _ =>
    let prices := rows.map fun r => r.price
    let volumes := rows.map fun r => r.volume
    let fundings := rows.map fun r => r.funding_rate
    { price_volatility_1h := rollingStdLast 12 prices
      price_volatility_24h := rollingStdLast 288 prices
      volume_volatility_24h := rollingStdLast 288 volumes
      funding_rate_volatility :=
        if has_funding_column then rollingStdLast 24 fundings else some 0
      cross_correlation :=
        if 10 < rows.length then pearsonCorr prices volumes else some 0 }

/-! ## Concrete instances used to witness the theorems -/

/-- A pool with current price 1 and a 0.3% fee tier. -/
noncomputable def examplePool : LiquidityPool :=
  { price_token0_in_token1 := 1, fee_tier := 0.003 }

/-- A single market snapshot with 24h volume 100. -/
noncomputable def exampleMD : List MarketData := [{ volume_24h := 100 }]

/-- A well-ordered raw prediction: bounds 1 and 1.0001^60 (both already
tick-aligned). -/
noncomputable def exampleRaw : RangePrediction :=
  { lower_price := 1, upper_price := tickBase ^ (60 : ℤ), confidence := 0.6
    reasoning := "stat" }

/-- An inverted raw prediction, as an attached model is free to produce:
its lower bound is above its upper bound. -/
noncomputable def invertedRaw : RangePrediction :=
  { lower_price := tickBase ^ (60 : ℤ), upper_price := 1, confidence := 0.7
    reasoning := "onnx" }

/-- The exact result of the pipeline on `exampleRaw` / `examplePool` /
`exampleMD` with position size 1000. -/
noncomputable def exampleRange : LiquidityRange :=
  { lower_price := (tickBase ^ (60 : ℤ) + 1) / 2 - (tickBase ^ (60 : ℤ) - 1) * 0.95 / 2
    upper_price := (tickBase ^ (60 : ℤ) + 1) / 2 + (tickBase ^ (60 : ℤ) - 1) * 0.95 / 2
    confidence := 0.6
    expected_fees := (exampleMD.map fun md => md.volume_24h).sum / (exampleMD.length : ℝ) *
      (0.003 * min 5 (0.1 /
        (((tickBase ^ (60 : ℤ) + 1) / 2 + (tickBase ^ (60 : ℤ) - 1) * 0.95 / 2 -
          ((tickBase ^ (60 : ℤ) + 1) / 2 - (tickBase ^ (60 : ℤ) - 1) * 0.95 / 2)) / 1))) /
      365 * 1000 / 1000
    impermanent_loss_risk := min 0.5
      (((tickBase ^ (60 : ℤ) + 1) / 2 + (tickBase ^ (60 : ℤ) - 1) * 0.95 / 2 -
        ((tickBase ^ (60 : ℤ) + 1) / 2 - (tickBase ^ (60 : ℤ) - 1) * 0.95 / 2)) / 1 * 2)
    capital_efficiency :=
      if (1 : ℝ) ≤ (tickBase ^ (60 : ℤ) + 1) / 2 - (tickBase ^ (60 : ℤ) - 1) * 0.95 / 2 ∨
          (tickBase ^ (60 : ℤ) + 1) / 2 + (tickBase ^ (60 : ℤ) - 1) * 0.95 / 2 ≤ 1 then 0
      else min 1 (1 /
        (((tickBase ^ (60 : ℤ) + 1) / 2 + (tickBase ^ (60 : ℤ) - 1) * 0.95 / 2 -
          ((tickBase ^ (60 : ℤ) + 1) / 2 - (tickBase ^ (60 : ℤ) - 1) * 0.95 / 2)) / 1))
    reasoning := "stat" ++ " + SEI gas optimization" }

/-! ## Helper lemmas -/

lemma tickBase_pos : (0 : ℝ) < tickBase := by norm_num [tickBase]

lemma one_lt_tickBase : (1 : ℝ) < tickBase := by norm_num [tickBase]

lemma log_tickBase_ne_zero : Real.log tickBase ≠ 0 :=
  ne_of_gt (Real.log_pos one_lt_tickBase)

lemma itrunc_intCast (m : ℤ) : itrunc (m : ℝ) = m := by
  unfold itrunc
  split
  · exact Int.floor_intCast m
  · exact Int.ceil_intCast m

lemma align_of_pos (p : ℝ) (hp : 0 < p) :
    align_to_tick_spacing p =
      some (tickBase ^ ((itrunc (Real.log p / Real.log tickBase)).fdiv 60 * 60)) := by
  unfold align_to_tick_spacing
  rw [if_neg (not_le.mpr hp)]

lemma align_fixed (k : ℤ) :
    align_to_tick_spacing (tickBase ^ (k * 60)) = some (tickBase ^ (k * 60)) := by
  have hp : (0 : ℝ) < tickBase ^ (k * 60) := zpow_pos tickBase_pos _
  rw [align_of_pos _ hp, Real.log_zpow, mul_div_assoc, div_self log_tickBase_ne_zero,
    mul_one, itrunc_intCast, Int.mul_fdiv_cancel _ (by norm_num : (60 : ℤ) ≠ 0)]

lemma align_one : align_to_tick_spacing 1 = some 1 := by
  have h := align_fixed 0
  simpa using h

lemma one_lt_pow60 : (1 : ℝ) < tickBase ^ (60 : ℤ) :=
  one_lt_zpow₀ one_lt_tickBase (by norm_num)

lemma align_pow60 :
    align_to_tick_spacing (tickBase ^ (60 : ℤ)) = some (tickBase ^ (60 : ℤ)) := by
  have h := align_fixed 1
  simpa using h

lemma align_pos {p q : ℝ} (h : align_to_tick_spacing p = some q) : 0 < q := by
  unfold align_to_tick_spacing at h
  by_cases hp : p ≤ 0
  · rw [if_pos hp] at h; cases h
  · rw [if_neg hp] at h
    obtain rfl := (Option.some.inj h).symm
    exact zpow_pos tickBase_pos _

lemma align_eq_aligned {p q : ℝ} (h : align_to_tick_spacing p = some q) :
    ∃ k : ℤ, q = tickBase ^ (k * 60) := by
  unfold align_to_tick_spacing at h
  by_cases hp : p ≤ 0
  · rw [if_pos hp] at h; cases h
  · rw [if_neg hp] at h
    exact ⟨_, (Option.some.inj h).symm⟩

lemma optimize_eq {rp : RangePrediction} {l u : ℝ}
    (hl : align_to_tick_spacing rp.lower_price = some l)
    (hu : align_to_tick_spacing rp.upper_price = some u) :
    optimize_for_sei rp = some
      { lower_price := (u + l) / 2 - (u - l) * 0.95 / 2
        upper_price := (u + l) / 2 + (u - l) * 0.95 / 2
        confidence := rp.confidence
        reasoning := rp.reasoning ++ " + SEI gas optimization" } := by
  unfold optimize_for_sei
  rw [hl, hu]

lemma metrics_eq {rp : RangePrediction} {pool : LiquidityPool}
    {md : List MarketData} {ps : ℝ}
    (hp : pool.price_token0_in_token1 ≠ 0)
    (hmd : md.length ≠ 0)
    (hw : (rp.upper_price - rp.lower_price) / pool.price_token0_in_token1 ≠ 0) :
    calculate_performance_metrics rp pool md ps = some
      { expected_fees := (md.map fun md => md.volume_24h).sum / (md.length : ℝ) *
          (pool.fee_tier * min 5 (0.1 /
            ((rp.upper_price - rp.lower_price) / pool.price_token0_in_token1))) / 365 * ps / 1000
        il_risk := min 0.5 ((rp.upper_price - rp.lower_price) / pool.price_token0_in_token1 * 2)
        capital_efficiency :=
          if pool.price_token0_in_token1 ≤ rp.lower_price ∨
              rp.upper_price ≤ pool.price_token0_in_token1 then 0
          else min 1 (1 / ((rp.upper_price - rp.lower_price) / pool.price_token0_in_token1)) } := by
  simp only [calculate_performance_metrics]
  rw [if_neg hp, if_neg hmd, if_neg hw]

lemma predict_spec {raw : RangePrediction} {pool : LiquidityPool}
    {md : List MarketData} {ps l u : ℝ}
    (hl : align_to_tick_spacing raw.lower_price = some l)
    (hu : align_to_tick_spacing raw.upper_price = some u)
    (hp : pool.price_token0_in_token1 ≠ 0)
    (hmd : md.length ≠ 0)
    (hne : l ≠ u) :
    predict_optimal_range raw pool md ps = some
      { lower_price := (u + l) / 2 - (u - l) * 0.95 / 2
        upper_price := (u + l) / 2 + (u - l) * 0.95 / 2
        confidence := raw.confidence
        expected_fees := (md.map fun md => md.volume_24h).sum / (md.length : ℝ) *
          (pool.fee_tier * min 5 (0.1 /
            (((u + l) / 2 + (u - l) * 0.95 / 2 - ((u + l) / 2 - (u - l) * 0.95 / 2)) /
              pool.price_token0_in_token1))) / 365 * ps / 1000
        impermanent_loss_risk := min 0.5
          (((u + l) / 2 + (u - l) * 0.95 / 2 - ((u + l) / 2 - (u - l) * 0.95 / 2)) /
            pool.price_token0_in_token1 * 2)
        capital_efficiency :=
          if pool.price_token0_in_token1 ≤ (u + l) / 2 - (u - l) * 0.95 / 2 ∨
              (u + l) / 2 + (u - l) * 0.95 / 2 ≤ pool.price_token0_in_token1 then 0
          else min 1 (1 /
            (((u + l) / 2 + (u - l) * 0.95 / 2 - ((u + l) / 2 - (u - l) * 0.95 / 2)) /
              pool.price_token0_in_token1))
        reasoning := raw.reasoning ++ " + SEI gas optimization" } := by
  have hw : ((u + l) / 2 + (u - l) * 0.95 / 2 - ((u + l) / 2 - (u - l) * 0.95 / 2)) /
      pool.price_token0_in_token1 ≠ 0 := by
    refine div_ne_zero ?_ hp
    intro h
    have h2 : (u - l) * 0.95 = 0 := by linear_combination h
    rcases mul_eq_zero.mp h2 with h3 | h3
    · exact hne (sub_eq_zero.mp h3).symm
    · norm_num at h3
  unfold predict_optimal_range
  rw [optimize_eq hl hu]
  simp only [Option.some_bind]
  rw [@metrics_eq
    { lower_price := (u + l) / 2 - (u - l) * 0.95 / 2
      upper_price := (u + l) / 2 + (u - l) * 0.95 / 2
      confidence := raw.confidence
      reasoning := raw.reasoning ++ " + SEI gas optimization" } pool md ps hp hmd hw]
  simp only [Option.map_some']

lemma predict_example :
    predict_optimal_range exampleRaw examplePool exampleMD 1000 = some exampleRange :=
  predict_spec align_one align_pow60 (by norm_num [examplePool])
    (by norm_num [exampleMD]) (ne_of_lt one_lt_pow60)

lemma metrics_ce_inv {rp : RangePrediction} {pool : LiquidityPool}
    {md : List MarketData} {ps : ℝ} {pm : PerformanceMetrics}
    (h : calculate_performance_metrics rp pool md ps = some pm) :
    pm.capital_efficiency =
      if pool.price_token0_in_token1 ≤ rp.lower_price ∨
          rp.upper_price ≤ pool.price_token0_in_token1 then 0
      else min 1 (1 / ((rp.upper_price - rp.lower_price) / pool.price_token0_in_token1)) := by
  simp only [calculate_performance_metrics] at h
  by_cases h1 : pool.price_token0_in_token1 = 0
  · rw [if_pos h1] at h; cases h
  · rw [if_neg h1] at h
    by_cases h2 : md.length = 0
    · rw [if_pos h2] at h; cases h
    · rw [if_neg h2] at h
      by_cases h3 : (rp.upper_price - rp.lower_price) / pool.price_token0_in_token1 = 0
      · rw [if_pos h3] at h; cases h
      · rw [if_neg h3] at h
        obtain rfl := Option.some.inj h
        rfl

lemma optimize_inv {rp opt : RangePrediction} (h : optimize_for_sei rp = some opt) :
    ∃ l u, align_to_tick_spacing rp.lower_price = some l ∧
      align_to_tick_spacing rp.upper_price = some u ∧
      opt.lower_price = (u + l) / 2 - (u - l) * 0.95 / 2 ∧
      opt.upper_price = (u + l) / 2 + (u - l) * 0.95 / 2 := by
  unfold optimize_for_sei at h
  cases ha : align_to_tick_spacing rp.lower_price with
  | none =>
    cases hb : align_to_tick_spacing rp.upper_price with
    | none => rw [ha, hb] at h; cases h
    | some u => rw [ha, hb] at h; cases h
  | some l =>
    cases hb : align_to_tick_spacing rp.upper_price with
    | none => rw [ha, hb] at h; cases h
    | some u =>
      rw [ha, hb] at h
      obtain rfl := Option.some.inj h
      exact ⟨l, u, rfl, rfl, rfl, rfl⟩

/-! ## Claim theorems -/

/-- C2 counterexample: on the vault metrics {volatility 0.4, correlation 0.6,
liquidity 50000, positionSize 10000, totalPoolSize 100000} the overall risk
score is 877/3500 ≈ 0.2506 < 0.3, so `assess_vault_risk` classifies the vault
as "low", not "medium" as the claim states. -/
theorem assess_vault_risk_scenario_not_medium :
    (assess_vault_risk ⟨0.4, 0.6, 50000, 10000, 100000⟩).risk_level = "low" ∧
    (assess_vault_risk ⟨0.4, 0.6, 50000, 10000, 100000⟩).risk_level ≠ "medium" := by
  have hl : (assess_vault_risk ⟨0.4, 0.6, 50000, 10000, 100000⟩).risk_level = "low" := by
    norm_num [assess_vault_risk, calculate_impermanent_loss_risk, calculate_volatility_risk,
      calculate_liquidity_risk, calculate_concentration_risk, min_def]
  exact ⟨hl, by rw [hl]; decide⟩

/-- C2 (corrected): on the scenario vault metrics the impermanent-loss
component is exactly 0.24, the overall risk score lies strictly between 0.2
and 0.4 (it is 877/3500), and the risk level is "low" (not "medium": the
score is below the 0.3 low/medium threshold). -/
theorem assess_vault_risk_scenario_exact :
    (assess_vault_risk ⟨0.4, 0.6, 50000, 10000, 100000⟩).components.impermanent_loss_risk
        = 0.24 ∧
    (assess_vault_risk ⟨0.4, 0.6, 50000, 10000, 100000⟩).overall_risk_score = 877 / 3500 ∧
    0.2 < (assess_vault_risk ⟨0.4, 0.6, 50000, 10000, 100000⟩).overall_risk_score ∧
    (assess_vault_risk ⟨0.4, 0.6, 50000, 10000, 100000⟩).overall_risk_score < 0.4 ∧
    (assess_vault_risk ⟨0.4, 0.6, 50000, 10000, 100000⟩).risk_level = "low" := by
  norm_num [assess_vault_risk, calculate_impermanent_loss_risk, calculate_volatility_risk,
    calculate_liquidity_risk, calculate_concentration_risk, min_def]

/-- C7 counterexample: for utilization 0.2 on the 120-tick range [940, 1060]
centered at tick 1000, the action and urgency match the claim but the new
range is [900, 1020]: its width is 120, which is neither 70% of the original
width (84) nor that value rounded to the nearest tick-spacing multiple (60). -/
theorem rebalance_scenario_width_unchanged :
    (analyze_rebalance_need ⟨940, 1060, 1000, 0.2⟩).action = "rebalance_required" ∧
    (analyze_rebalance_need ⟨940, 1060, 1000, 0.2⟩).urgency = "high" ∧
    (analyze_rebalance_need ⟨940, 1060, 1000, 0.2⟩).new_upper_tick -
      (analyze_rebalance_need ⟨940, 1060, 1000, 0.2⟩).new_lower_tick = 120 ∧
    (120 : ℤ) ≠ 84 ∧ (120 : ℤ) ≠ 60 := by
  have hq : qtrunc (84 : ℚ) = 84 := by norm_num [qtrunc]
  have hs : ("rebalance_required" = "hold_position") = False := eq_false (by decide)
  norm_num [analyze_rebalance_need, hq, hs]
  decide

/-- C7 (corrected): for utilization 0.2 on the 120-tick range [940, 1060] at
current tick 1000, the response is action "rebalance_required", urgency
"high", expected improvement 55, and the new range [900, 1020]: each endpoint
of the centered 84-tick range [958, 1042] is floored to a multiple of the
tick spacing 60 (the width is not rounded as a whole, and here the endpoint
flooring restores the original 120-tick width). -/
theorem rebalance_scenario_exact :
    (analyze_rebalance_need ⟨940, 1060, 1000, 0.2⟩).action = "rebalance_required" ∧
    (analyze_rebalance_need ⟨940, 1060, 1000, 0.2⟩).urgency = "high" ∧
    (analyze_rebalance_need ⟨940, 1060, 1000, 0.2⟩).new_lower_tick = 900 ∧
    (analyze_rebalance_need ⟨940, 1060, 1000, 0.2⟩).new_upper_tick = 1020 ∧
    (analyze_rebalance_need ⟨940, 1060, 1000, 0.2⟩).expected_improvement = 55 := by
  have hq : qtrunc (84 : ℚ) = 84 := by norm_num [qtrunc]
  have hs : ("rebalance_required" = "hold_position") = False := eq_false (by decide)
  norm_num [analyze_rebalance_need, hq, hs]
  decide

/-- C10 (confirmed): whenever the utilization rate is at least 0.6,
`analyze_rebalance_need` returns action "hold_position", urgency "low",
expected improvement 0, and leaves the request's tick range unchanged. -/
theorem rebalance_hold_frame (req : RebalanceRequest)
    (h : (0.6 : ℚ) ≤ req.utilization_rate) :
    (analyze_rebalance_need req).action = "hold_position" ∧
    (analyze_rebalance_need req).urgency = "low" ∧
    (analyze_rebalance_need req).expected_improvement = 0 ∧
    (analyze_rebalance_need req).new_lower_tick = req.lower_tick ∧
    (analyze_rebalance_need req).new_upper_tick = req.upper_tick := by
  have h1 : ¬(req.utilization_rate < (0.3 : ℚ)) := not_lt.mpr (le_trans (by norm_num) h)
  have h2 : ¬(req.utilization_rate < (0.6 : ℚ)) := not_lt.mpr h
  simp [analyze_rebalance_need, h1, h2]

/-- C10 witness: the frame property at the concrete request
(940, 1060, 1000, utilization 0.75). -/
theorem rebalance_hold_frame_witness :
    (analyze_rebalance_need ⟨940, 1060, 1000, 0.75⟩).action = "hold_position" ∧
    (analyze_rebalance_need ⟨940, 1060, 1000, 0.75⟩).urgency = "low" ∧
    (analyze_rebalance_need ⟨940, 1060, 1000, 0.75⟩).expected_improvement = 0 ∧
    (analyze_rebalance_need ⟨940, 1060, 1000, 0.75⟩).new_lower_tick = 940 ∧
    (analyze_rebalance_need ⟨940, 1060, 1000, 0.75⟩).new_upper_tick = 1060 :=
  rebalance_hold_frame ⟨940, 1060, 1000, 0.75⟩ (by norm_num)

/-- C9 (confirmed): for a position with positive entry price,
`generate_rebalance_signal` returns `None` exactly when the relative price
drift is at most the threshold; when it returns a signal, the action is
"REBALANCE" and the confidence is min(0.9, 2·drift), hence at most 0.9. -/
theorem rebalance_signal_spec (entry_price current_price threshold : ℚ)
    (_h : 0 < entry_price) :
    (generate_rebalance_signal entry_price current_price threshold = none ↔
      |current_price - entry_price| / entry_price ≤ threshold) ∧
    (threshold < |current_price - entry_price| / entry_price →
      generate_rebalance_signal entry_price current_price threshold =
        some { action := "REBALANCE"
               confidence := min 0.9 (|current_price - entry_price| / entry_price * 2)
               target_price := current_price } ∧
      min (0.9 : ℚ) (|current_price - entry_price| / entry_price * 2) ≤ 0.9) := by
  simp only [generate_rebalance_signal]
  by_cases hc : threshold < |current_price - entry_price| / entry_price
  · rw [if_pos hc]
    exact ⟨⟨fun h' => Option.noConfusion h', fun hle => absurd hc (not_lt.mpr hle)⟩,
      fun _ => ⟨rfl, min_le_left _ _⟩⟩
  · rw [if_neg hc]
    exact ⟨iff_of_true rfl (not_lt.mp hc), fun hcc => absurd hcc hc⟩

/-- C9 witness: entry price 1, pool price 2, threshold 0.1 — drift 1 exceeds
the threshold, so a REBALANCE signal with confidence min(0.9, 2) is
produced. -/
theorem rebalance_signal_witness :
    (generate_rebalance_signal 1 2 0.1 = none ↔ |(2 : ℚ) - 1| / 1 ≤ 0.1) ∧
    ((0.1 : ℚ) < |(2 : ℚ) - 1| / 1 →
      generate_rebalance_signal 1 2 0.1 =
        some { action := "REBALANCE", confidence := min 0.9 (|(2 : ℚ) - 1| / 1 * 2)
               target_price := 2 } ∧
      min (0.9 : ℚ) (|(2 : ℚ) - 1| / 1 * 2) ≤ 0.9) :=
  rebalance_signal_spec 1 2 0.1 (by norm_num)

/-- C4 counterexample: at input price 0 the tick conversion computes
`int(log(0)/log(1.0001)) = int(-inf)`, which raises an `OverflowError`
(modelled `none`) — the function does not return the original input price
unchanged, contrary to the claim that it never raises. -/
theorem align_raises_on_zero_price : align_to_tick_spacing 0 = none := by
  unfold align_to_tick_spacing
  rw [if_pos le_rfl]

/-- C4 (corrected): for every strictly positive input price, tick alignment
returns a strictly positive price; but for non-positive prices the `int(...)`
conversion of `nan`/`-inf` raises instead of returning the input price
unchanged — the source has no defensive fallback. -/
theorem align_pos_of_pos_price (p : ℝ) (hp : 0 < p) :
    ∃ q, align_to_tick_spacing p = some q ∧ 0 < q :=
  ⟨_, align_of_pos p hp, zpow_pos tickBase_pos _⟩

/-- C4 witness: alignment of price 1 succeeds with a positive result. -/
theorem align_pos_of_pos_price_witness :
    ∃ q, align_to_tick_spacing 1 = some q ∧ 0 < q :=
  align_pos_of_pos_price 1 one_pos

/-- C8 (confirmed): tick alignment is idempotent — any price produced by
alignment is a fixed point of alignment. -/
theorem align_idempotent (q p : ℝ) (h : align_to_tick_spacing q = some p) :
    align_to_tick_spacing p = some p := by
  obtain ⟨k, rfl⟩ := align_eq_aligned h
  exact align_fixed k

/-- C8 witness: price 1 aligns to itself, so re-aligning it is a no-op. -/
theorem align_idempotent_witness : align_to_tick_spacing 1 = some 1 :=
  align_idempotent 1 1 align_one

/-- C5 counterexample: on a series with exactly one row (fewer than 2 rows),
the 1h price-volatility feature is `NaN` (the rolling std of an undersized
window; `NaN` is truthy in Python so `... or 0.0` does not replace it), not
0.0 as the claim states. -/
theorem volatility_features_one_row_nan :
    (calculate_volatility_features false
      [{ price := 1, volume := 1, funding_rate := 0 }]).price_volatility_1h = none ∧
    (calculate_volatility_features false
      [{ price := 1, volume := 1, funding_rate := 0 }]).price_volatility_1h ≠ some 0 := by
  constructor
  · simp [calculate_volatility_features, rollingStdLast]
  · simp [calculate_volatility_features, rollingStdLast]

/-- C5 (corrected): on an empty series all five volatility features are 0.0
and no exception is raised; but on a series with exactly one row (still fewer
than 2 rows) no exception is raised yet the three rolling-std features are
`NaN` rather than 0.0 (funding-rate volatility and cross-correlation are
0.0 there). -/
theorem volatility_features_short_series :
    calculate_volatility_features false [] =
      { price_volatility_1h := some 0, price_volatility_24h := some 0
        volume_volatility_24h := some 0, funding_rate_volatility := some 0
        cross_correlation := some 0 } ∧
    calculate_volatility_features true [] =
      { price_volatility_1h := some 0, price_volatility_24h := some 0
        volume_volatility_24h := some 0, funding_rate_volatility := some 0
        cross_correlation := some 0 } ∧
    calculate_volatility_features false [{ price := 1, volume := 1, funding_rate := 0 }] =
      { price_volatility_1h := none, price_volatility_24h := none
        volume_volatility_24h := none, funding_rate_volatility := some 0
        cross_correlation := some 0 } := by
  refine ⟨rfl, rfl, ?_⟩
  simp [calculate_volatility_features, rollingStdLast]

/-- C3 counterexample: for a degenerate zero-width range (lower = upper = 1)
with pool price 1, the concentration multiplier computes `0.1 / 0`, which
raises a `ZeroDivisionError` (modelled `none`) — no documented default is
substituted, contrary to the claim. -/
theorem metrics_raises_on_zero_width :
    calculate_performance_metrics
      { lower_price := 1, upper_price := 1, confidence := 0.6, reasoning := "s" }
      { price_token0_in_token1 := 1, fee_tier := 0.003 }
      [{ volume_24h := 100 }] 1000 = none := by
  simp only [calculate_performance_metrics]
  norm_num

/-- C3 (corrected): in the divide-by-zero cases (zero current price, zero
range width, empty market data) the metrics calculation raises instead of
substituting a default; when the current price is positive, the range has
positive width, and the market data is non-empty with non-negative volumes,
fee tier and position size, the call returns and all three metrics are
non-negative (finiteness is automatic in the exact-arithmetic model). -/
theorem metrics_nonneg (rp : RangePrediction) (pool : LiquidityPool)
    (md : List MarketData) (ps : ℝ)
    (hp : 0 < pool.price_token0_in_token1)
    (hlt : rp.lower_price < rp.upper_price)
    (hmd : md.length ≠ 0)
    (hvol : ∀ m ∈ md, 0 ≤ m.volume_24h)
    (hfee : 0 ≤ pool.fee_tier)
    (hps : 0 ≤ ps) :
    ∃ pm, calculate_performance_metrics rp pool md ps = some pm ∧
      0 ≤ pm.expected_fees ∧ 0 ≤ pm.il_risk ∧ 0 ≤ pm.capital_efficiency := by
  have hwpos : 0 < (rp.upper_price - rp.lower_price) / pool.price_token0_in_token1 :=
    div_pos (sub_pos.mpr hlt) hp
  refine ⟨_, metrics_eq (ne_of_gt hp) hmd (ne_of_gt hwpos), ?_, ?_, ?_⟩
  · show 0 ≤ (md.map fun md => md.volume_24h).sum / (md.length : ℝ) *
      (pool.fee_tier * min 5 (0.1 /
        ((rp.upper_price - rp.lower_price) / pool.price_token0_in_token1))) / 365 * ps / 1000
    have hsum : 0 ≤ (md.map fun md => md.volume_24h).sum := by
      apply List.sum_nonneg
      intro x hx
      obtain ⟨m, hm, rfl⟩ := List.mem_map.mp hx
      exact hvol m hm
    have h1 : 0 ≤ (md.map fun md => md.volume_24h).sum / (md.length : ℝ) :=
      div_nonneg hsum (Nat.cast_nonneg _)
    have h2 : 0 ≤ pool.fee_tier * min 5 (0.1 /
        ((rp.upper_price - rp.lower_price) / pool.price_token0_in_token1)) :=
      mul_nonneg hfee (le_min (by norm_num) (le_of_lt (div_pos (by norm_num) hwpos)))
    exact div_nonneg (mul_nonneg (div_nonneg (mul_nonneg h1 h2) (by norm_num)) hps)
      (by norm_num)
  · show 0 ≤ min 0.5
      ((rp.upper_price - rp.lower_price) / pool.price_token0_in_token1 * 2)
    exact le_min (by norm_num) (le_of_lt (mul_pos hwpos (by norm_num)))
  · show 0 ≤ if pool.price_token0_in_token1 ≤ rp.lower_price ∨
        rp.upper_price ≤ pool.price_token0_in_token1 then 0
      else min 1 (1 / ((rp.upper_price - rp.lower_price) / pool.price_token0_in_token1))
    split
    · exact le_refl 0
    · exact le_min (by norm_num) (le_of_lt (one_div_pos.mpr hwpos))

/-- C3 witness: a valid range (1, 2) on a price-1 pool with one positive
volume snapshot returns non-negative metrics. -/
theorem metrics_nonneg_witness :
    ∃ pm, calculate_performance_metrics
        { lower_price := 1, upper_price := 2, confidence := 0.6, reasoning := "s" }
        { price_token0_in_token1 := 1, fee_tier := 0.003 }
        [{ volume_24h := 100 }] 1000 = some pm ∧
      0 ≤ pm.expected_fees ∧ 0 ≤ pm.il_risk ∧ 0 ≤ pm.capital_efficiency :=
  metrics_nonneg _ _ _ _ (by norm_num) (by norm_num) (by norm_num)
    (by intro m hm; rw [List.mem_singleton] at hm; subst hm; norm_num)
    (by norm_num) (by norm_num)

/-- C1 counterexample: under the model-backed predictor branch, a raw
prediction whose bounds are inverted (lower 1.0001^60, upper 1) flows through
`_optimize_for_sei` and the metrics step unchecked, and
`predict_optimal_range` returns a `LiquidityRange` whose `upper_price` is
strictly below its `lower_price` — the claimed invariant fails, and in
particular no minimum-width re-validation happens after the shrink. -/
theorem predict_returns_inverted_range :
    ∃ res, predict_optimal_range invertedRaw examplePool exampleMD 1000 = some res ∧
      res.upper_price < res.lower_price := by
  have h := @predict_spec invertedRaw examplePool exampleMD 1000 (tickBase ^ (60 : ℤ)) 1
    align_pow60 align_one (by norm_num [examplePool]) (by norm_num [exampleMD])
    (ne_of_gt one_lt_pow60)
  refine ⟨_, h, ?_⟩
  show (1 + tickBase ^ (60 : ℤ)) / 2 + (1 - tickBase ^ (60 : ℤ)) * 0.95 / 2 <
    (1 + tickBase ^ (60 : ℤ)) / 2 - (1 - tickBase ^ (60 : ℤ)) * 0.95 / 2
  nlinarith [one_lt_pow60]

/-- C1 (corrected): on every successful return the lower price is strictly
positive, and the returned range satisfies `upper_price > lower_price`
whenever the tick-aligned raw bounds are strictly ordered (aligned lower <
aligned upper); the code performs no minimum-width re-validation after the
0.95 shrink, and an inverted model prediction yields an inverted returned
range. -/
theorem predict_ordered_of_aligned_ordered (raw : RangePrediction)
    (pool : LiquidityPool) (md : List MarketData) (ps : ℝ) (l u : ℝ)
    (res : LiquidityRange)
    (hl : align_to_tick_spacing raw.lower_price = some l)
    (hu : align_to_tick_spacing raw.upper_price = some u)
    (hres : predict_optimal_range raw pool md ps = some res) :
    0 < res.lower_price ∧ (l < u → res.lower_price < res.upper_price) := by
  unfold predict_optimal_range at hres
  cases hopt : optimize_for_sei raw with
  | none => rw [hopt] at hres; cases hres
  | some opt =>
    rw [hopt] at hres
    simp only [Option.some_bind] at hres
    cases hmet : calculate_performance_metrics opt pool md ps with
    | none => rw [hmet] at hres; cases hres
    | some pm =>
      rw [hmet] at hres
      simp only [Option.map_some'] at hres
      obtain rfl := Option.some.inj hres
      show 0 < opt.lower_price ∧ (l < u → opt.lower_price < opt.upper_price)
      obtain ⟨l2, u2, ha, hb, hL, hU⟩ := optimize_inv hopt
      rw [ha] at hl
      rw [hb] at hu
      obtain rfl := Option.some.inj hl
      obtain rfl := Option.some.inj hu
      have hlpos : 0 < l2 := align_pos ha
      have hupos : 0 < u2 := align_pos hb
      constructor
      · rw [hL]
        nlinarith
      · intro hlu
        rw [hL, hU]
        nlinarith

/-- C1 witness: the ordered raw prediction (1, 1.0001^60) on a price-1 pool
returns the concrete range `exampleRange`, whose bounds are positive and
strictly ordered. -/
theorem predict_ordered_witness :
    0 < exampleRange.lower_price ∧ exampleRange.lower_price < exampleRange.upper_price :=
  have h := predict_ordered_of_aligned_ordered exampleRaw examplePool exampleMD 1000 1
    (tickBase ^ (60 : ℤ)) exampleRange align_one align_pow60 predict_example
  ⟨h.1, h.2 one_lt_pow60⟩

/-- C6 (confirmed): every `LiquidityRange` returned by the pipeline has
`capital_efficiency` in [0, 1], and it equals 0 whenever the pool's current
price is ≤ `lower_price` or ≥ `upper_price`. -/
theorem capital_efficiency_in_unit_interval (raw : RangePrediction)
    (pool : LiquidityPool) (md : List MarketData) (ps : ℝ) (res : LiquidityRange)
    (hres : predict_optimal_range raw pool md ps = some res) :
    0 ≤ res.capital_efficiency ∧ res.capital_efficiency ≤ 1 ∧
      ((pool.price_token0_in_token1 ≤ res.lower_price ∨
        res.upper_price ≤ pool.price_token0_in_token1) → res.capital_efficiency = 0) := by
  unfold predict_optimal_range at hres
  cases hopt : optimize_for_sei raw with
  | none => rw [hopt] at hres; cases hres
  | some opt =>
    rw [hopt] at hres
    simp only [Option.some_bind] at hres
    cases hmet : calculate_performance_metrics opt pool md ps with
    | none => rw [hmet] at hres; cases hres
    | some pm =>
      rw [hmet] at hres
      simp only [Option.map_some'] at hres
      obtain rfl := Option.some.inj hres
      show 0 ≤ pm.capital_efficiency ∧ pm.capital_efficiency ≤ 1 ∧
        ((pool.price_token0_in_token1 ≤ opt.lower_price ∨
          opt.upper_price ≤ pool.price_token0_in_token1) → pm.capital_efficiency = 0)
      obtain ⟨l, u, ha, hb, hL, hU⟩ := optimize_inv hopt
      have hlpos : 0 < l := align_pos ha
      have hupos : 0 < u := align_pos hb
      rw [metrics_ce_inv hmet]
      by_cases hc : pool.price_token0_in_token1 ≤ opt.lower_price ∨
          opt.upper_price ≤ pool.price_token0_in_token1
      · rw [if_pos hc]
        exact ⟨le_refl 0, by norm_num, fun _ => rfl⟩
      · rw [if_neg hc]
        have hc2 := hc
        push_neg at hc2
        have hLpos : 0 < opt.lower_price := by rw [hL]; nlinarith
        have hppos : 0 < pool.price_token0_in_token1 := lt_trans hLpos hc2.1
        have hwpos : 0 < (opt.upper_price - opt.lower_price) /
            pool.price_token0_in_token1 :=
          div_pos (by linarith [hc2.1, hc2.2]) hppos
        exact ⟨le_min (by norm_num) (le_of_lt (one_div_pos.mpr hwpos)),
          min_le_left _ _, fun hcc => absurd hcc hc⟩

/-- C6 witness: the concrete range returned on `exampleRaw` has its capital
efficiency in [0, 1] (here the price 1 sits below the shrunk lower bound, so
the out-of-range clause applies non-vacuously). -/
theorem capital_efficiency_witness :
    0 ≤ exampleRange.capital_efficiency ∧ exampleRange.capital_efficiency ≤ 1 ∧
      ((examplePool.price_token0_in_token1 ≤ exampleRange.lower_price ∨
        exampleRange.upper_price ≤ examplePool.price_token0_in_token1) →
        exampleRange.capital_efficiency = 0) :=
  capital_efficiency_in_unit_interval exampleRaw examplePool exampleMD 1000 exampleRange
    predict_example
